import Mathlib

/- Shallow embedding of `src/backend/ai/ai_server.py`, the Event_Corner AI server.

Modelling conventions:
* JSON values are the inductive `Json`; Python's `json.loads` is an abstract parameter
  `parse : String → Option Json` (the stdlib parser is external code; the properties below
  depend only on whether parsing succeeds and on the parsed value).
* The Ollama backend (`ollama.chat`) is an oracle `backend : List ChatMessage → BackendOutcome`:
  `.ok content` models a response whose extracted message content — via
  `response.get("message", \x7b\x7d).get("content", "")` — is `content`; `.exn m` models a
  raised exception `e` with `str(e) = m`.
* FastAPI turns an uncaught `HTTPException(code, detail)` into a response with that status
  and body `\x7b"detail": detail\x7d`; `str` of an `HTTPException` is `"<code>: <detail>"`
  (Starlette's `HTTPException.__str__`).
* Python string truthiness (`if not s`, `if request.context:`) is comparison with `""`;
  `str` operations (`strip`, `lower`, `in`, `startswith`) are modelled by structurally
  recursive functions over character lists so concrete inputs evaluate in proofs.
* Each handler returns the HTTP response paired with the trace of backend invocations
  (the list of message lists passed to `ollama.chat`), so "the backend is never invoked"
  and "a single attempt, no retry" are visible in the model. -/

namespace EventCorner

/-- JSON values: the shape of response bodies and of `json.loads` output. -/
inductive Json where
  | null
  | bool (b : Bool)
  | num (q : Rat)
  | str (s : String)
  | arr (elems : List Json)
  | obj (fields : List (String × Json))

/-- Field lookup on a JSON object (`d.get(k)` on a Python dict); `none` on non-objects. -/
def Json.lookup : Json → String → Option Json
  | .obj fields, k => List.lookup k fields
  | _, _ => none

/-- A role-tagged message as passed to `ollama.chat`. -/
structure ChatMessage where
  role : String
  content : String
  deriving DecidableEq

/-- An HTTP response: status code and JSON body. -/
structure HttpResponse where
  status : Nat
  body : Json

/-- `\x7b"detail": detail\x7d` — FastAPI's body for an uncaught `HTTPException`. -/
def httpErrorBody (detail : String) : Json := .obj [("detail", .str detail)]

/-- Exceptions that can escape the handlers' `try` blocks. -/
inductive PyExn where
  | http (status : Nat) (detail : String)
  | other (msg : String)

/-- `str(e)`: Starlette's `HTTPException.__str__` is `"<status>: <detail>"`;
for other exceptions, the carried message. -/
def strOfExn : PyExn → String
  | .http c d => toString c ++ ": " ++ d
  | .other m => m

/- Python's str operations are modelled by structurally recursive functions over the
character list of a `String`, so that proofs can evaluate them on concrete inputs. -/

/-- The first list is an initial segment of the second. -/
def leadChars : List Char → List Char → Bool
  | [], _ => true
  | _ :: _, [] => false
  | a :: as, b :: bs => a == b && leadChars as bs

/-- Some suffix of the second list begins with the first list. -/
def hasSegChars (sub : List Char) : List Char → Bool
  | [] => leadChars sub []
  | c :: cs => leadChars sub (c :: cs) || hasSegChars sub cs

/-- Python's `sub in s` substring test. -/
def strContains (s sub : String) : Bool := hasSegChars sub.toList s.toList

/-- Python's `s.startswith(p)`. -/
def pyStartsWith (s p : String) : Bool := leadChars p.toList s.toList

/-- Python's `s.lower()` (the inputs concerned are ASCII). -/
def lowerStr (s : String) : String := ⟨s.toList.map Char.toLower⟩

/-- `not s or not s.strip()`: `s` is empty or whitespace-only. -/
def isBlank (s : String) : Bool := s.toList.all Char.isWhitespace

/-- `"connection" in error_msg.lower() or "11434" in error_msg` (lines 144, 263). -/
def indicatesUnreachable (m : String) : Bool :=
  strContains (lowerStr m) "connection" || strContains m "11434"

/-- The `except Exception` blocks of `chat` and `create_event_conversation`
(ai_server.py lines 140–146 and 259–265). -/
def handleCaught (failText : String) (e : PyExn) : HttpResponse :=
  if indicatesUnreachable (strOfExn e) then
    ⟨503, httpErrorBody "Ollama is not running on port 11434"⟩
  else
    ⟨500, httpErrorBody (failText ++ strOfExn e)⟩

/-- Outcome of one `ollama.chat` call: `.ok content` is a response whose extracted message
content is `content`; `.exn m` is a raised exception with `str(e) = m`. -/
inductive BackendOutcome where
  | ok (content : String)
  | exn (msg : String)

/-- Request body of `POST /chat`. -/
structure ChatRequest where
  message : String
  context : Option String

/-- The fixed system prompt of the `/chat` endpoint (lines 120–124). -/
def chatSystemPrompt : String :=
  "You are a helpful AI assistant for Event Corner, an event management platform. " ++
  "Help users with finding events, understanding event details, creating events, and using the platform. " ++
  "Be friendly, concise, and helpful."

/-- Message list composed by `/chat` (lines 126–129): system prompt, an optional context
system message (`if request.context:` — Python truthiness, so `None` and the empty string
both add nothing), then the user message. -/
def chatMessages (req : ChatRequest) : List ChatMessage :=
  [⟨"system", chatSystemPrompt⟩]
    ++ (match req.context with
        | some c => if c = "" then [] else [⟨"system", "Context: " ++ c⟩]
        | none => [])
    ++ [⟨"user", req.message⟩]

/-- The `try` block of the `/chat` handler (lines 114–138): the produced body or the
escaping exception, paired with the trace of backend invocations. -/
def chatTryBody (req : ChatRequest) (backend : List ChatMessage → BackendOutcome) :
    Except PyExn Json × List (List ChatMessage) :=
  if isBlank req.message then
    (.error (.http 400 "Message is required"), [])
  else
    match backend (chatMessages req) with
    | .exn m => (.error (.other m), [chatMessages req])
    | .ok content =>
      if content = "" then
        (.error (.http 500 "Empty response from model"), [chatMessages req])
      else
        (.ok (.obj [("success", .bool true), ("response", .str content)]), [chatMessages req])

/-- The `/chat` handler: the `try` block with every escaping exception — including the
handler's own `HTTPException`s — caught by `except Exception` and classified. -/
def chat (req : ChatRequest) (backend : List ChatMessage → BackendOutcome) :
    HttpResponse × List (List ChatMessage) :=
  match chatTryBody req backend with
  | (.ok body, calls) => (⟨200, body⟩, calls)
  | (.error e, calls) => (handleCaught "Chat failed: " e, calls)

/-- One entry of `conversation_history`: a dict whose `role`/`content` keys may be absent. -/
structure Turn where
  role : Option String
  content : Option String

/-- Request body of `POST /create-event-conversation`. -/
structure EventConversationRequest where
  message : String
  conversation_history : Option (List Turn)

/-- The fixed system prompt of `/create-event-conversation` (lines 164–217). -/
def eventSystemPrompt : String :=
"You are an expert event planning assistant for Event Corner platform.
Your job is to help users create events by extracting event details from their descriptions.

Required fields:
- title (string): Event name
- description (text): Detailed description
- category (string): MUST be ONE of these exact values: workshop, seminar, competition, cultural, conference, networking, sports, charity, exhibition, other
- venue_type (string): MUST be ONE of: physical, online, hybrid
- venue_name (string): Venue or platform name (e.g., \"IUT Auditorium\", \"Zoom\", \"Hybrid: Main Hall + YouTube Live\")
- timeslots (array): [\x7btitle, start, end\x7d] - Use ISO 8601 format (YYYY-MM-DDTHH:MM:SS+06:00) for Asia/Dhaka timezone

Optional fields:
- tags (array of strings): Relevant keywords
- contact_email, contact_phone: Contact information
- requirements (text): Prerequisites or requirements to participate
- venue_address (for physical/hybrid events): Full address
- venue_city, venue_state, venue_country: Location details

Guidelines:
1. Extract ALL available information from the user's message
2. If CRITICAL information is missing (title, date/time, or venue_type), ask ONE specific question
3. Make reasonable assumptions for optional fields based on context
4. Infer category from event description (e.g., \"coding competition\" → competition, \"tech talk\" → seminar)
5. For dates: Use ISO 8601 format with +06:00 timezone (Asia/Dhaka)
6. Be friendly and concise

RESPONSE FORMAT - You MUST respond with valid JSON only, no other text:

When asking for clarification:
\x7b
  \"needs_clarification\": true,
  \"question\": \"What date and time will the workshop be held?\",
  \"extracted_so_far\": \x7b\"title\": \"React Workshop\", \"category\": \"workshop\", \"venue_type\": \"online\"\x7d,
  \"missing_fields\": [\"timeslots\"],
  \"confidence\": 0.6
\x7d

When data is complete:
\x7b
  \"needs_clarification\": false,
  \"event_data\": \x7b
    \"title\": \"React Workshop\",
    \"description\": \"Learn React...\",
    \"category\": \"workshop\",
    \"venue_type\": \"online\",
    \"venue_name\": \"Zoom\",
    \"timeslots\": [\x7b\"title\": \"Main Session\", \"start\": \"2025-01-15T14:00:00+06:00\", \"end\": \"2025-01-15T16:00:00+06:00\"\x7d],
    \"tags\": [\"react\", \"javascript\", \"web-development\"]
  \x7d,
  \"confidence\": 0.95,
  \"message\": \"Great! I've extracted all the details for your event. Please review and edit if needed.\"
\x7d

Remember: Respond ONLY with valid JSON, no markdown, no explanation text outside the JSON."

/-- `\x7b"role": msg.get("role", "user"), "content": msg.get("content", "")\x7d` (line 224). -/
def normTurn (t : Turn) : ChatMessage :=
  ⟨t.role.getD "user", t.content.getD ""⟩

/-- Message list composed by `/create-event-conversation` (lines 219–226): system prompt,
the history turns in order (each with defaulted `role`/`content`), then the new user
message. `None` and the empty history compose the same list
(`if request.conversation_history:`). -/
def eventMessages (req : EventConversationRequest) : List ChatMessage :=
  [⟨"system", eventSystemPrompt⟩]
    ++ (match req.conversation_history with
        | some h => h.map normTurn
        | none => [])
    ++ [⟨"user", req.message⟩]

/-- The fallback result built when `json.loads` raises `JSONDecodeError` (lines 248–254). -/
def fallbackResult : Json :=
  .obj [("needs_clarification", .bool true),
        ("question", .str "I'm having trouble understanding. Could you describe your event with more details?"),
        ("extracted_so_far", .obj []),
        ("missing_fields", .arr [.str "title", .str "category", .str "venue_type", .str "timeslots"]),
        ("confidence", .num 0)]

/-- The `try` block of `/create-event-conversation` (lines 158–257); `parse` is Python's
`json.loads`, with `none` standing for `JSONDecodeError`. -/
def eventTryBody (parse : String → Option Json) (req : EventConversationRequest)
    (backend : List ChatMessage → BackendOutcome) :
    Except PyExn Json × List (List ChatMessage) :=
  if isBlank req.message then
    (.error (.http 400 "Message is required"), [])
  else
    match backend (eventMessages req) with
    | .exn m => (.error (.other m), [eventMessages req])
    | .ok content =>
      if content = "" then
        (.error (.http 500 "Empty response from model"), [eventMessages req])
      else
        (.ok (.obj [("success", .bool true),
                    ("result", (parse content).getD fallbackResult)]),
         [eventMessages req])

/-- The `/create-event-conversation` handler: the `try` block with every escaping
exception caught by `except Exception` and classified. -/
def create_event_conversation (parse : String → Option Json) (req : EventConversationRequest)
    (backend : List ChatMessage → BackendOutcome) :
    HttpResponse × List (List ChatMessage) :=
  match eventTryBody parse req backend with
  | (.ok body, calls) => (⟨200, body⟩, calls)
  | (.error e, calls) => (handleCaught "Event conversation failed: " e, calls)

/-- Trace of the temporary file used by `/analyze` to hand image bytes to the Analyzer. -/
structure AnalyzeTrace where
  tempCreated : Bool
  tempReleased : Bool

/-- The `/analyze` handler `analyze_banner` (lines 66–107). The filesystem is modelled as
reliable (creating the temp file and `os.unlink` on an existing path succeed);
`readWrite` is the outcome of `await file.read()` and `tmp.write(content)` inside the
`with` block, `analyzeOutcome` the outcome of `analyzer.analyze(tmp_path)`
(`.error m` = an exception with `str(e) = m`).

The `NamedTemporaryFile(delete=False)` creates the file on disk the moment the `with`
block is entered, but `tmp_path = tmp.name` is assigned only after the read and the write
succeed. When the read or the write raises, `tmp_path` is still `None`, so the `finally`
block's guard `if tmp_path and os.path.exists(tmp_path)` skips `os.unlink`: the created
file is not released on that exit path. On the later paths (`analyzer.analyze` failure, or
success) `tmp_path` is set and the `finally` block removes the file. -/
def analyze_banner (analyzerLoaded : Bool) (contentType : String)
    (readWrite : Except String Unit) (analyzeOutcome : Except String Json) :
    HttpResponse × AnalyzeTrace :=
  if !analyzerLoaded then
    (⟨503, httpErrorBody "Analyzer not initialized"⟩, ⟨false, false⟩)
  else if !(pyStartsWith contentType "image/") then
    (⟨400, httpErrorBody "File must be an image"⟩, ⟨false, false⟩)
  else
    match readWrite with
    | .error m => (⟨500, httpErrorBody ("Analysis failed: " ++ m)⟩, ⟨true, false⟩)
    | .ok _ =>
      match analyzeOutcome with
      | .ok result => (⟨200, result⟩, ⟨true, true⟩)
      | .error m => (⟨500, httpErrorBody ("Analysis failed: " ++ m)⟩, ⟨true, true⟩)

/-- The enumerated `category` domain (system prompt, line 170 of the source). -/
def categoryDomain : List String :=
  ["workshop", "seminar", "competition", "cultural", "conference", "networking",
   "sports", "charity", "exhibition", "other"]

/-- The enumerated `venue_type` domain (system prompt, line 171 of the source). -/
def venueTypeDomain : List String := ["physical", "online", "hybrid"]

/-- Required `event_data` fields (system prompt, lines 168–173 of the source). -/
def requiredFields : List String :=
  ["title", "description", "category", "venue_type", "venue_name", "timeslots"]

/-- A parsed Completion-shaped output: `needs_clarification` absent or `false`, all
required `event_data` fields present, and a `confidence` value present. -/
def isCompletionJson (j : Json) : Bool :=
  (match j.lookup "needs_clarification" with
   | none => true
   | some (.bool false) => true
   | _ => false)
  && requiredFields.all (fun f => ((j.lookup "event_data").bind (fun d => d.lookup f)).isSome)
  && (j.lookup "confidence").isSome

/-- A syntactically valid Completion output whose `category` and `venue_type` lie outside
the enumerated domains. -/
def outOfDomainCompletion : Json :=
  .obj [("needs_clarification", .bool false),
        ("event_data", .obj [("title", .str "Tea Party"),
                             ("description", .str "A party with tea"),
                             ("category", .str "banana"),
                             ("venue_type", .str "teleport"),
                             ("venue_name", .str "Garden"),
                             ("timeslots", .arr [])]),
        ("confidence", .num (19/20)),
        ("message", .str "done")]

/-- A syntactically valid, in-domain Completion output (the system prompt's own example). -/
def sampleCompletion : Json :=
  .obj [("needs_clarification", .bool false),
        ("event_data", .obj [("title", .str "React Workshop"),
                             ("description", .str "Learn React"),
                             ("category", .str "workshop"),
                             ("venue_type", .str "online"),
                             ("venue_name", .str "Zoom"),
                             ("timeslots", .arr [.obj [("title", .str "Main Session"),
                                                       ("start", .str "2025-01-15T14:00:00+06:00"),
                                                       ("end", .str "2025-01-15T16:00:00+06:00")]])]),
        ("confidence", .num (19/20)),
        ("message", .str "Great! I have extracted all the details for your event.")]


/- Helper lemmas: evaluation of the handlers' `try` blocks under each case of the
backend oracle. -/

theorem chatTryBody_blank (req : ChatRequest) (backend : List ChatMessage → BackendOutcome)
    (hm : isBlank req.message = true) :
    chatTryBody req backend = (.error (.http 400 "Message is required"), []) := by
  simp [chatTryBody, hm]

theorem chatTryBody_exn (req : ChatRequest) (backend : List ChatMessage → BackendOutcome)
    (m : String) (hm : isBlank req.message = false)
    (hb : backend (chatMessages req) = .exn m) :
    chatTryBody req backend = (.error (.other m), [chatMessages req]) := by
  simp [chatTryBody, hm, hb]

theorem chatTryBody_empty (req : ChatRequest) (backend : List ChatMessage → BackendOutcome)
    (hm : isBlank req.message = false)
    (hb : backend (chatMessages req) = .ok "") :
    chatTryBody req backend = (.error (.http 500 "Empty response from model"), [chatMessages req]) := by
  simp [chatTryBody, hm, hb]

theorem chatTryBody_ok (req : ChatRequest) (backend : List ChatMessage → BackendOutcome)
    (c : String) (hm : isBlank req.message = false)
    (hb : backend (chatMessages req) = .ok c) (hc : c ≠ "") :
    chatTryBody req backend =
      (.ok (.obj [("success", .bool true), ("response", .str c)]), [chatMessages req]) := by
  simp [chatTryBody, hm, hb, hc]

theorem eventTryBody_blank (parse : String → Option Json) (req : EventConversationRequest)
    (backend : List ChatMessage → BackendOutcome) (hm : isBlank req.message = true) :
    eventTryBody parse req backend = (.error (.http 400 "Message is required"), []) := by
  simp [eventTryBody, hm]

theorem eventTryBody_exn (parse : String → Option Json) (req : EventConversationRequest)
    (backend : List ChatMessage → BackendOutcome) (m : String)
    (hm : isBlank req.message = false)
    (hb : backend (eventMessages req) = .exn m) :
    eventTryBody parse req backend = (.error (.other m), [eventMessages req]) := by
  simp [eventTryBody, hm, hb]

theorem eventTryBody_empty (parse : String → Option Json) (req : EventConversationRequest)
    (backend : List ChatMessage → BackendOutcome)
    (hm : isBlank req.message = false)
    (hb : backend (eventMessages req) = .ok "") :
    eventTryBody parse req backend =
      (.error (.http 500 "Empty response from model"), [eventMessages req]) := by
  simp [eventTryBody, hm, hb]

theorem eventTryBody_ok (parse : String → Option Json) (req : EventConversationRequest)
    (backend : List ChatMessage → BackendOutcome) (c : String)
    (hm : isBlank req.message = false)
    (hb : backend (eventMessages req) = .ok c) (hc : c ≠ "") :
    eventTryBody parse req backend =
      (.ok (.obj [("success", .bool true), ("result", (parse c).getD fallbackResult)]),
       [eventMessages req]) := by
  simp [eventTryBody, hm, hb, hc]

/-- On a successfully parsed backend output `j`, the endpoint responds 200 with the parsed
value embedded verbatim, after exactly one backend call. -/
theorem event_parsed_response (parse : String → Option Json) (req : EventConversationRequest)
    (backend : List ChatMessage → BackendOutcome) (c : String) (j : Json)
    (hm : isBlank req.message = false)
    (hb : backend (eventMessages req) = .ok c) (hc : c ≠ "")
    (hp : parse c = some j) :
    create_event_conversation parse req backend =
      (⟨200, .obj [("success", .bool true), ("result", j)]⟩, [eventMessages req]) := by
  unfold create_event_conversation
  rw [eventTryBody_ok parse req backend c hm hb hc, hp]
  rfl

/-- Whenever the message is non-blank, exactly one backend call is made, with the composed
message list, whatever the backend outcome and parse result. -/
theorem event_trace (parse : String → Option Json) (req : EventConversationRequest)
    (backend : List ChatMessage → BackendOutcome) (hm : isBlank req.message = false) :
    (create_event_conversation parse req backend).2 = [eventMessages req] := by
  unfold create_event_conversation eventTryBody
  rw [hm]
  cases hb : backend (eventMessages req) with
  | exn m => simp
  | ok c =>
    by_cases hc : c = "" <;> simp [hc]



/-- C1 (against the claim's words, see the counterpart statements): for every blank or
whitespace-only message, neither endpoint invokes the backend (empty call trace), but the
HTTP status is 500, not the claimed 400: each handler raises
`HTTPException(400, "Message is required")` inside its own `try`, whose blanket
`except Exception` catches it and re-raises it as
`HTTPException(500, "... failed: 400: Message is required")`. -/
theorem blank_message_no_call_but_500
    (parse : String → Option Json) (req : ChatRequest) (ereq : EventConversationRequest)
    (cb eb : List ChatMessage → BackendOutcome)
    (h1 : isBlank req.message = true) (h2 : isBlank ereq.message = true) :
    chat req cb = (⟨500, httpErrorBody "Chat failed: 400: Message is required"⟩, []) ∧
    create_event_conversation parse ereq eb =
      (⟨500, httpErrorBody "Event conversation failed: 400: Message is required"⟩, []) := by
  constructor
  · unfold chat
    rw [chatTryBody_blank req cb h1]
    rfl
  · unfold create_event_conversation
    rw [eventTryBody_blank parse ereq eb h2]
    rfl

/-- Witness for C1's theorem at the whitespace-only message `"   "`. -/
theorem blank_message_no_call_but_500_witness :
    chat ⟨"   ", none⟩ (fun _ => .ok "hi") =
      (⟨500, httpErrorBody "Chat failed: 400: Message is required"⟩, []) ∧
    create_event_conversation (fun _ => some (.obj [])) ⟨"   ", none⟩ (fun _ => .ok "hi") =
      (⟨500, httpErrorBody "Event conversation failed: 400: Message is required"⟩, []) :=
  blank_message_no_call_but_500 (fun _ => some (.obj [])) ⟨"   ", none⟩ ⟨"   ", none⟩
    (fun _ => .ok "hi") (fun _ => .ok "hi") (by decide) (by decide)

/-- C2: whenever the backend call succeeds with non-empty content that `json.loads` cannot
parse, `/create-event-conversation` responds 200 with `success = true` and the fixed
fallback Clarification: the fixed question, empty `extracted_so_far`,
`missing_fields = [title, category, venue_type, timeslots]`, `confidence = 0.0`. -/
theorem interpret_unparseable_fallback
    (parse : String → Option Json) (req : EventConversationRequest)
    (backend : List ChatMessage → BackendOutcome) (content : String)
    (hm : isBlank req.message = false)
    (hb : backend (eventMessages req) = .ok content)
    (hc : content ≠ "") (hp : parse content = none) :
    (create_event_conversation parse req backend).1 =
      ⟨200, .obj [("success", .bool true),
        ("result", .obj [("needs_clarification", .bool true),
          ("question", .str "I'm having trouble understanding. Could you describe your event with more details?"),
          ("extracted_so_far", .obj []),
          ("missing_fields", .arr [.str "title", .str "category", .str "venue_type", .str "timeslots"]),
          ("confidence", .num 0)])]⟩ := by
  unfold create_event_conversation
  rw [eventTryBody_ok parse req backend content hm hb hc, hp]
  rfl

/-- Witness for C2's theorem: a parser that fails on the concrete output `"not json"`. -/
theorem interpret_unparseable_fallback_witness :
    (create_event_conversation (fun _ => none) ⟨"make an event", none⟩
        (fun _ => .ok "not json")).1 =
      ⟨200, .obj [("success", .bool true),
        ("result", .obj [("needs_clarification", .bool true),
          ("question", .str "I'm having trouble understanding. Could you describe your event with more details?"),
          ("extracted_so_far", .obj []),
          ("missing_fields", .arr [.str "title", .str "category", .str "venue_type", .str "timeslots"]),
          ("confidence", .num 0)])]⟩ :=
  interpret_unparseable_fallback (fun _ => none) ⟨"make an event", none⟩
    (fun _ => .ok "not json") "not json" (by decide) rfl (by decide) rfl


/-- C3 counterexample: `"banana"` and `"teleport"` are outside the enumerated domains, yet
when the parsed backend output carries them as `category`/`venue_type` the endpoint returns
them in a `success = true` result unchanged — an out-of-domain value is silently accepted,
refuting the claim as stated. -/
theorem out_of_domain_enum_accepted :
    "banana" ∉ categoryDomain ∧ "teleport" ∉ venueTypeDomain ∧
    (outOfDomainCompletion.lookup "event_data").bind (fun d => d.lookup "category") =
      some (.str "banana") ∧
    (outOfDomainCompletion.lookup "event_data").bind (fun d => d.lookup "venue_type") =
      some (.str "teleport") ∧
    (create_event_conversation (fun _ => some outOfDomainCompletion) ⟨"a tea party", none⟩
        (fun _ => .ok "output")).1 =
      ⟨200, .obj [("success", .bool true), ("result", outOfDomainCompletion)]⟩ :=
  ⟨by decide, by decide, rfl, rfl, rfl⟩

/-- C3 amended: the service performs no domain validation on the decision it returns — a
parsed backend output whose `category` and `venue_type` lie outside the enumerated domains
is returned verbatim, with `success = true`, in the decision produced by the service. -/
theorem out_of_domain_enum_returned_verbatim
    (parse : String → Option Json) (req : EventConversationRequest)
    (backend : List ChatMessage → BackendOutcome) (content : String) (j : Json)
    (cat vt : String)
    (hm : isBlank req.message = false)
    (hb : backend (eventMessages req) = .ok content) (hc : content ≠ "")
    (hp : parse content = some j)
    (_hcat : (j.lookup "event_data").bind (fun d => d.lookup "category") = some (.str cat))
    (_hvt : (j.lookup "event_data").bind (fun d => d.lookup "venue_type") = some (.str vt))
    (_hdc : cat ∉ categoryDomain) (_hdv : vt ∉ venueTypeDomain) :
    (create_event_conversation parse req backend).1 =
      ⟨200, .obj [("success", .bool true), ("result", j)]⟩ := by
  rw [event_parsed_response parse req backend content j hm hb hc hp]

/-- Witness for C3's amended theorem at the out-of-domain Completion. -/
theorem out_of_domain_enum_returned_verbatim_witness :
    (create_event_conversation (fun _ => some outOfDomainCompletion) ⟨"host a tea party", none⟩
        (fun _ => .ok "output")).1 =
      ⟨200, .obj [("success", .bool true), ("result", outOfDomainCompletion)]⟩ :=
  out_of_domain_enum_returned_verbatim (fun _ => some outOfDomainCompletion)
    ⟨"host a tea party", none⟩ (fun _ => .ok "output") "output" outOfDomainCompletion
    "banana" "teleport" (by decide) rfl (by decide) rfl rfl rfl (by decide) (by decide)

/-- C4: a backend output that parses to a Completion-shaped JSON (`needs_clarification`
absent or `false`, all required `event_data` fields present) is returned by the endpoint
as the decision, equal to the parsed input with no field added, removed or modified; in
particular `event_data` and `confidence` are passed through verbatim. -/
theorem completion_roundtrip_unmodified
    (parse : String → Option Json) (req : EventConversationRequest)
    (backend : List ChatMessage → BackendOutcome) (content : String) (j : Json)
    (hm : isBlank req.message = false)
    (hb : backend (eventMessages req) = .ok content) (hc : content ≠ "")
    (hp : parse content = some j)
    (_hshape : isCompletionJson j = true) :
    (create_event_conversation parse req backend).1 =
      ⟨200, .obj [("success", .bool true), ("result", j)]⟩ ∧
    ((create_event_conversation parse req backend).1.body.lookup "result").bind
        (fun r => r.lookup "event_data") = j.lookup "event_data" ∧
    ((create_event_conversation parse req backend).1.body.lookup "result").bind
        (fun r => r.lookup "confidence") = j.lookup "confidence" := by
  have h := event_parsed_response parse req backend content j hm hb hc hp
  refine ⟨by rw [h], by rw [h]; rfl, by rw [h]; rfl⟩

/-- Witness for C4's theorem at the system prompt's own Completion example. -/
theorem completion_roundtrip_unmodified_witness :
    (create_event_conversation (fun _ => some sampleCompletion) ⟨"host a react workshop", none⟩
        (fun _ => .ok "output")).1 =
      ⟨200, .obj [("success", .bool true), ("result", sampleCompletion)]⟩ ∧
    ((create_event_conversation (fun _ => some sampleCompletion) ⟨"host a react workshop", none⟩
        (fun _ => .ok "output")).1.body.lookup "result").bind
        (fun r => r.lookup "event_data") = sampleCompletion.lookup "event_data" ∧
    ((create_event_conversation (fun _ => some sampleCompletion) ⟨"host a react workshop", none⟩
        (fun _ => .ok "output")).1.body.lookup "result").bind
        (fun r => r.lookup "confidence") = sampleCompletion.lookup "confidence" :=
  completion_roundtrip_unmodified (fun _ => some sampleCompletion)
    ⟨"host a react workshop", none⟩ (fun _ => .ok "output") "output" sampleCompletion
    (by decide) rfl (by decide) rfl (by decide)


/-- C5: when the backend call raises, each endpoint makes exactly one backend attempt (the
call trace is a singleton, so there is no retry) and classifies the failure by its
description: if it contains `"connection"` (case-insensitively) or `"11434"` — connection
refused / the well-known backend port — the response is 503, otherwise 500 with the
underlying message embedded in the detail. -/
theorem backend_failure_classified
    (parse : String → Option Json) (req : ChatRequest) (ereq : EventConversationRequest)
    (cb eb : List ChatMessage → BackendOutcome) (m m' : String)
    (h1 : isBlank req.message = false) (hb1 : cb (chatMessages req) = .exn m)
    (h2 : isBlank ereq.message = false) (hb2 : eb (eventMessages ereq) = .exn m') :
    chat req cb =
      ((if indicatesUnreachable m then
          ⟨503, httpErrorBody "Ollama is not running on port 11434"⟩
        else ⟨500, httpErrorBody ("Chat failed: " ++ m)⟩), [chatMessages req]) ∧
    create_event_conversation parse ereq eb =
      ((if indicatesUnreachable m' then
          ⟨503, httpErrorBody "Ollama is not running on port 11434"⟩
        else ⟨500, httpErrorBody ("Event conversation failed: " ++ m')⟩), [eventMessages ereq]) := by
  constructor
  · unfold chat
    rw [chatTryBody_exn req cb m h1 hb1]
    rfl
  · unfold create_event_conversation
    rw [eventTryBody_exn parse ereq eb m' h2 hb2]
    rfl

/-- Witness for C5's theorem: a connection-refused failure is a 503, any other failure a
500 embedding the message; one backend call each. -/
theorem backend_failure_classified_witness :
    chat ⟨"hi", none⟩ (fun _ => .exn "Connection refused by host") =
      (⟨503, httpErrorBody "Ollama is not running on port 11434"⟩,
       [chatMessages ⟨"hi", none⟩]) ∧
    create_event_conversation (fun _ => none) ⟨"hello", none⟩ (fun _ => .exn "model exploded") =
      (⟨500, httpErrorBody "Event conversation failed: model exploded"⟩,
       [eventMessages ⟨"hello", none⟩]) := by
  have h := backend_failure_classified (fun _ => none) ⟨"hi", none⟩ ⟨"hello", none⟩
    (fun _ => .exn "Connection refused by host") (fun _ => .exn "model exploded")
    "Connection refused by host" "model exploded" (by decide) rfl (by decide) rfl
  simpa [show indicatesUnreachable "Connection refused by host" = true from by decide,
         show indicatesUnreachable "model exploded" = false from by decide] using h

/-- C6: for any conversation history — of length 0, 1 or N — and any non-blank message,
the single message list sent to the backend is the system prompt first, then the history
turns in their original order, then the new user message last (also when the history field
is absent). -/
theorem composed_messages_ordered
    (parse : String → Option Json) (hist : List ChatMessage) (m : String)
    (backend : List ChatMessage → BackendOutcome) (hm : isBlank m = false) :
    (create_event_conversation parse
        ⟨m, some (hist.map fun t => ⟨some t.role, some t.content⟩)⟩ backend).2 =
      [⟨"system", eventSystemPrompt⟩ :: (hist ++ [⟨"user", m⟩])] ∧
    (create_event_conversation parse ⟨m, none⟩ backend).2 =
      [[⟨"system", eventSystemPrompt⟩, ⟨"user", m⟩]] := by
  constructor
  · rw [event_trace parse _ backend hm]
    simp only [eventMessages, List.map_map]
    have hid : (normTurn ∘ fun t : ChatMessage => Turn.mk (some t.role) (some t.content)) = id := by
      funext t
      rfl
    rw [hid, List.map_id]
    rfl
  · rw [event_trace parse _ backend hm]
    rfl

/-- Witness for C6's theorem on a two-turn history. -/
theorem composed_messages_ordered_witness :
    (create_event_conversation (fun _ => none)
        ⟨"tomorrow at noon", some [⟨some "user", some "I want a workshop"⟩,
                                   ⟨some "assistant", some "When will it be held?"⟩]⟩
        (fun _ => .ok "output")).2 =
      [⟨"system", eventSystemPrompt⟩ ::
        ([⟨"user", "I want a workshop"⟩, ⟨"assistant", "When will it be held?"⟩] ++
          [⟨"user", "tomorrow at noon"⟩])] ∧
    (create_event_conversation (fun _ => none) ⟨"tomorrow at noon", none⟩
        (fun _ => .ok "output")).2 =
      [[⟨"system", eventSystemPrompt⟩, ⟨"user", "tomorrow at noon"⟩]] :=
  composed_messages_ordered (fun _ => none)
    [⟨"user", "I want a workshop"⟩, ⟨"assistant", "When will it be held?"⟩]
    "tomorrow at noon" (fun _ => .ok "output") (by decide)

/-- C7 (against the claim's words): on the exit path of `/analyze` where reading the
upload or writing the temp file raises, the `delete=False` temp file has already been
created, but `tmp_path` is still `None`, so the `finally` guard
`if tmp_path and os.path.exists(tmp_path)` skips `os.unlink`: the endpoint reports the
500 failure and the created temp file is not released — it leaks, refuting "released on
every exit path, including the failure path". On the analyze-failure and success paths
the file is released. -/
theorem read_failure_leaks_temp_file :
    (analyze_banner true "image/jpeg" (.error "read of request body failed") (.ok (.obj []))).1 =
      ⟨500, httpErrorBody "Analysis failed: read of request body failed"⟩ ∧
    (analyze_banner true "image/jpeg" (.error "read of request body failed")
        (.ok (.obj []))).2.tempCreated = true ∧
    (analyze_banner true "image/jpeg" (.error "read of request body failed")
        (.ok (.obj []))).2.tempReleased = false ∧
    (analyze_banner true "image/jpeg" (.ok ()) (.error "ocr crashed")).2.tempReleased = true ∧
    (analyze_banner true "image/jpeg" (.ok ()) (.ok (.obj []))).2.tempReleased = true :=
  ⟨rfl, rfl, rfl, rfl, rfl⟩


/-- C8 counterexample: with `context` present but equal to the empty string (non-null), no
context system message is added — the composed list is exactly the fixed system prompt and
the user message, and the context message that the claim requires
(`"Context: " ++ context`, here `⟨"system", "Context: "⟩`) is not in the list: Python's
`if request.context:` treats a present-but-empty context like an absent one, refuting the
claim as stated. -/
theorem empty_context_present_not_injected :
    chatMessages ⟨"hi", some ""⟩ = [⟨"system", chatSystemPrompt⟩, ⟨"user", "hi"⟩] ∧
    (⟨"system", "Context: "⟩ : ChatMessage) ∉ chatMessages ⟨"hi", some ""⟩ :=
  ⟨rfl, by decide⟩

/-- C8 amended: for every `/chat` request whose `context` is present and non-empty, the
composed message list is exactly the fixed system prompt, then one additional system
message carrying the context (prefixed `"Context: "`), then the user message; when
`context` is absent — or present but empty, which the handler treats as absent — no such
message is added. -/
theorem context_injection_nonempty (m c : String) (hc : c ≠ "") :
    chatMessages ⟨m, some c⟩ =
      [⟨"system", chatSystemPrompt⟩, ⟨"system", "Context: " ++ c⟩, ⟨"user", m⟩] ∧
    chatMessages ⟨m, none⟩ = [⟨"system", chatSystemPrompt⟩, ⟨"user", m⟩] ∧
    chatMessages ⟨m, some ""⟩ = [⟨"system", chatSystemPrompt⟩, ⟨"user", m⟩] := by
  refine ⟨?_, rfl, rfl⟩
  simp [chatMessages, hc]

/-- Witness for C8's amended theorem. -/
theorem context_injection_nonempty_witness :
    chatMessages ⟨"any events nearby?", some "User is in Dhaka"⟩ =
      [⟨"system", chatSystemPrompt⟩, ⟨"system", "Context: " ++ "User is in Dhaka"⟩,
       ⟨"user", "any events nearby?"⟩] ∧
    chatMessages ⟨"any events nearby?", none⟩ =
      [⟨"system", chatSystemPrompt⟩, ⟨"user", "any events nearby?"⟩] ∧
    chatMessages ⟨"any events nearby?", some ""⟩ =
      [⟨"system", chatSystemPrompt⟩, ⟨"user", "any events nearby?"⟩] :=
  context_injection_nonempty "any events nearby?" "User is in Dhaka" (by decide)

/-- C9: when the backend responds with empty message content, both endpoints answer with a
generic 500 whose detail embeds "Empty response from model" (the handler's own 500
`HTTPException`, re-wrapped by the blanket `except`), not with the fallback Clarification —
the empty string never reaches the `json.loads` fallback. -/
theorem empty_model_output_500_not_fallback
    (parse : String → Option Json) (req : ChatRequest) (ereq : EventConversationRequest)
    (cb eb : List ChatMessage → BackendOutcome)
    (h1 : isBlank req.message = false) (hb1 : cb (chatMessages req) = .ok "")
    (h2 : isBlank ereq.message = false) (hb2 : eb (eventMessages ereq) = .ok "") :
    (chat req cb).1 =
      ⟨500, httpErrorBody "Chat failed: 500: Empty response from model"⟩ ∧
    (create_event_conversation parse ereq eb).1 =
      ⟨500, httpErrorBody "Event conversation failed: 500: Empty response from model"⟩ := by
  constructor
  · unfold chat
    rw [chatTryBody_empty req cb h1 hb1]
    rfl
  · unfold create_event_conversation
    rw [eventTryBody_empty parse ereq eb h2 hb2]
    rfl

/-- Witness for C9's theorem, with a parser that would succeed — it is never consulted. -/
theorem empty_model_output_500_not_fallback_witness :
    (chat ⟨"hi", none⟩ (fun _ => .ok "")).1 =
      ⟨500, httpErrorBody "Chat failed: 500: Empty response from model"⟩ ∧
    (create_event_conversation (fun _ => some (.obj [])) ⟨"hello", none⟩ (fun _ => .ok "")).1 =
      ⟨500, httpErrorBody "Event conversation failed: 500: Empty response from model"⟩ :=
  empty_model_output_500_not_fallback (fun _ => some (.obj [])) ⟨"hi", none⟩ ⟨"hello", none⟩
    (fun _ => .ok "") (fun _ => .ok "") (by decide) rfl (by decide) rfl

/-- C10: a history turn without a `role` key is forwarded to the backend with role
`"user"` and its content intact; a turn without a `content` key is forwarded with content
`""` and its role intact — both appear in the sent message list instead of being rejected
or dropped. -/
theorem history_turn_missing_keys_defaulted
    (parse : String → Option Json) (backend : List ChatMessage → BackendOutcome)
    (m r c : String) (hm : isBlank m = false) :
    (create_event_conversation parse ⟨m, some [⟨none, some c⟩, ⟨some r, none⟩]⟩ backend).2 =
      [[⟨"system", eventSystemPrompt⟩, ⟨"user", c⟩, ⟨r, ""⟩, ⟨"user", m⟩]] := by
  rw [event_trace parse _ backend hm]
  rfl

/-- Witness for C10's theorem. -/
theorem history_turn_missing_keys_defaulted_witness :
    (create_event_conversation (fun _ => none)
        ⟨"tomorrow", some [⟨none, some "I want a workshop"⟩, ⟨some "assistant", none⟩]⟩
        (fun _ => .ok "output")).2 =
      [[⟨"system", eventSystemPrompt⟩, ⟨"user", "I want a workshop"⟩, ⟨"assistant", ""⟩,
        ⟨"user", "tomorrow"⟩]] :=
  history_turn_missing_keys_defaulted (fun _ => none) (fun _ => .ok "output")
    "tomorrow" "assistant" "I want a workshop" (by decide)

end EventCorner
